import Mathlib

/-!
Verification of the stdio-to-HTTP/SSE protocol gateway scripts of this
repository (`http_mcp_wrapper.py`, `http_wrapper.py`, `stdio_test.py`,
`response_parser_demo.py`, `token_helper.py`).

The Python code is shallowly embedded: JSON values become the inductive
type `JVal`, the handful of Python dictionary/list operations the scripts
use become total Lean functions returning `Except PErr _` (where `.error`
models an uncaught Python exception), and `json.loads` becomes the
executable parser `parseJson`.  JSON numbers are modelled as integers;
every payload these scripts exchange uses integer literals only.
-/

namespace MCPGateway

/-- A JSON value. Numbers are modelled as integers (the payloads handled
by these scripts contain integer literals only). -/
inductive JVal where
  | null
  | bool (b : Bool)
  | num (n : Int)
  | str (s : String)
  | arr (xs : List JVal)
  | obj (kvs : List (String × JVal))
  deriving Repr

/-- The Python exceptions that the embedded dictionary/list operations can
raise. -/
inductive PErr where
  | typeError
  | attributeError
  | keyError
  deriving Repr, DecidableEq

/-- First-match lookup in an object's key/value list.  `parseJson` inserts
with `objInsert`, which keeps keys unique, so first-match agrees with the
last-duplicate-wins behaviour of `json.loads`. -/
def jlookup : List (String × JVal) → String → Option JVal
  | [], _ => none
  | (k, v) :: rest, key => if k = key then some v else jlookup rest key

/-- Insert a binding, replacing any existing binding of the same key
(`json.loads` keeps the last duplicate key). -/
def objInsert : List (String × JVal) → String → JVal → List (String × JVal)
  | [], key, v => [(key, v)]
  | (k, w) :: rest, key, v =>
    if k = key then (key, v) :: rest else (k, w) :: objInsert rest key v

def hasKey (kvs : List (String × JVal)) (key : String) : Bool :=
  (jlookup kvs key).isSome

/-- Whether `v` is exactly the Python string `s` (the comparisons
`item.get("type") == "text"` etc.; a Python `==` against a string is true
only for an equal string). -/
def isStrVal (v : JVal) (s : String) : Bool :=
  match v with
  | .str t => t = s
  | _ => false

/-- Whether `needle` occurs as a contiguous substring of the haystack. -/
def isSubstr (needle : List Char) : List Char → Bool
  | [] => needle.isEmpty
  | c :: rest => needle.isPrefixOf (c :: rest) || isSubstr needle rest

/-- Python `key in v` for a string key: key membership on a dict, element
membership on a list, substring test on a string, `TypeError` otherwise. -/
def pyIn (key : String) : JVal → Except PErr Bool
  | .obj kvs => .ok (hasKey kvs key)
  | .arr xs => .ok (xs.any (fun x => isStrVal x key))
  | .str s => .ok (isSubstr key.data s.data)
  | _ => .error .typeError

/-- Python `v[key]` for a string key: dict lookup (`KeyError` when the key
is missing), `TypeError` on any non-dict (list and string subscripts
require integers). -/
def pySubscript : JVal → String → Except PErr JVal
  | .obj kvs, key =>
    match jlookup kvs key with
    | some v => .ok v
    | none => .error .keyError
  | _, _ => .error .typeError

/-- Python `v.get(key, default)`: `AttributeError` when `v` is not a dict. -/
def pyGet : JVal → String → JVal → Except PErr JVal
  | .obj kvs, key, dflt => .ok ((jlookup kvs key).getD dflt)
  | _, _, _ => .error .attributeError

/-- Python truthiness of a JSON value (`if not tool_name:`). -/
def pyFalsy : JVal → Bool
  | .null => true
  | .bool b => !b
  | .num n => n == 0
  | .str s => s.isEmpty
  | .arr xs => xs.isEmpty
  | .obj kvs => kvs.isEmpty

def lbrace : Char := Char.ofNat 123

def rbrace : Char := Char.ofNat 125

def squote : Char := Char.ofNat 39

/-- Escape one character for a JSON string literal (`json.dumps`). -/
def jEscapeChar (c : Char) : String :=
  if c = '"' then "\\\""
  else if c = '\\' then "\\\\"
  else if c = '\n' then "\\n"
  else if c = '\t' then "\\t"
  else if c = '\r' then "\\r"
  else String.singleton c

/-- A JSON string literal with quotes and escapes (`json.dumps` on a string). -/
def jstrQuote (s : String) : String :=
  "\"" ++ String.join (s.data.map jEscapeChar) ++ "\""

mutual

/-- Serialization as in `json.dumps`, with item separator `isep` and key separator `ksep`. -/
def jdumpsV (isep ksep : String) : JVal → String
  | .null => "null"
  | .bool true => "true"
  | .bool false => "false"
  | .num n => toString n
  | .str s => jstrQuote s
  | .arr xs => "[" ++ jdumpsArr isep ksep xs ++ "]"
  | .obj kvs => "\x7b" ++ jdumpsObj isep ksep kvs ++ "\x7d"

def jdumpsArr (isep ksep : String) : List JVal → String
  | [] => ""
  | [x] => jdumpsV isep ksep x
  | x :: y :: rest => jdumpsV isep ksep x ++ isep ++ jdumpsArr isep ksep (y :: rest)

def jdumpsObj (isep ksep : String) : List (String × JVal) → String
  | [] => ""
  | [(k, v)] => jstrQuote k ++ ksep ++ jdumpsV isep ksep v
  | (k, v) :: p :: rest =>
    jstrQuote k ++ ksep ++ jdumpsV isep ksep v ++ isep ++ jdumpsObj isep ksep (p :: rest)

end

/-- Serialization `json.dumps(v)` with Python's default separators. -/
def jdumps (v : JVal) : String := jdumpsV ", " ": " v

/-- Compact serialization `json.dumps(v, separators=(",", ":"))`, used here to
spell out concrete wire lines. -/
def jdumpsc (v : JVal) : String := jdumpsV "," ":" v

/-- Escape one character for a Python string repr quoted with `q`. -/
def pyEscChar (q : Char) (c : Char) : String :=
  if c = '\\' then "\\\\"
  else if c = q then "\\" ++ String.singleton q
  else if c = '\n' then "\\n"
  else if c = '\t' then "\\t"
  else if c = '\r' then "\\r"
  else String.singleton c

/-- Python `repr` of a string: single-quoted unless the string contains a
single quote and no double quote. -/
def pyReprStr (s : String) : String :=
  let q := if s.data.contains squote && !s.data.contains '"' then '"' else squote
  String.singleton q ++ String.join (s.data.map (pyEscChar q)) ++ String.singleton q

mutual

/-- Python `repr` of a JSON value (used by `str()` on lists and dicts). -/
def pyRepr : JVal → String
  | .null => "None"
  | .bool true => "True"
  | .bool false => "False"
  | .num n => toString n
  | .str s => pyReprStr s
  | .arr xs => "[" ++ pyReprList xs ++ "]"
  | .obj kvs => "\x7b" ++ pyReprObj kvs ++ "\x7d"

def pyReprList : List JVal → String
  | [] => ""
  | [x] => pyRepr x
  | x :: y :: rest => pyRepr x ++ ", " ++ pyReprList (y :: rest)

def pyReprObj : List (String × JVal) → String
  | [] => ""
  | [(k, v)] => pyReprStr k ++ ": " ++ pyRepr v
  | (k, v) :: p :: rest => pyReprStr k ++ ": " ++ pyRepr v ++ ", " ++ pyReprObj (p :: rest)

end

/-- Python `str()` of a JSON value, as used inside f-strings. -/
def pyStr : JVal → String
  | .null => "None"
  | .bool true => "True"
  | .bool false => "False"
  | .num n => toString n
  | .str s => s
  | .arr xs => pyRepr (.arr xs)
  | .obj kvs => pyRepr (.obj kvs)

def isWsCh (c : Char) : Bool := c = ' ' || c = '\n' || c = '\t' || c = '\r'

def skipWs : List Char → List Char
  | [] => []
  | c :: rest => if isWsCh c then skipWs rest else c :: rest

def isDigitCh (c : Char) : Bool := '0' ≤ c && c ≤ '9'

def takeDigits : List Char → (List Char × List Char)
  | [] => ([], [])
  | c :: rest =>
    if isDigitCh c then
      let (ds, r) := takeDigits rest
      (c :: ds, r)
    else ([], c :: rest)

def digitsToNat (ds : List Char) : Nat :=
  ds.foldl (fun acc c => acc * 10 + (c.toNat - 48)) 0

/-- Parse the body of a JSON string literal, the opening quote already
consumed; returns the decoded string and the input after the closing
quote. -/
def parseStringBody : List Char → Option (String × List Char)
  | [] => none
  | c :: rest =>
    if c = '"' then some ("", rest)
    else if c = '\\' then
      match rest with
      | [] => none
      | e :: rest2 =>
        match (if e = '"' then some '"'
               else if e = '\\' then some '\\'
               else if e = '/' then some '/'
               else if e = 'n' then some '\n'
               else if e = 't' then some '\t'
               else if e = 'r' then some '\r'
               else if e = 'b' then some (Char.ofNat 8)
               else if e = 'f' then some (Char.ofNat 12)
               else none) with
        | none => none
        | some d =>
          match parseStringBody rest2 with
          | some (s, r) => some (String.singleton d ++ s, r)
          | none => none
    else
      match parseStringBody rest with
      | some (s, r) => some (String.singleton c ++ s, r)
      | none => none

mutual

/-- Parse one JSON value (the recursive core of `json.loads`), with fuel
bounding the recursion depth. -/
def parseVal : Nat → List Char → Option (JVal × List Char)
  | 0, _ => none
  | fuel + 1, cs =>
    match skipWs cs with
    | [] => none
    | c :: rest =>
      if c = 'n' then
        if List.isPrefixOf ['u', 'l', 'l'] rest then some (.null, rest.drop 3) else none
      else if c = 't' then
        if List.isPrefixOf ['r', 'u', 'e'] rest then some (.bool true, rest.drop 3) else none
      else if c = 'f' then
        if List.isPrefixOf ['a', 'l', 's', 'e'] rest then some (.bool false, rest.drop 4)
        else none
      else if c = '"' then
        match parseStringBody rest with
        | some (s, r) => some (.str s, r)
        | none => none
      else if c = '-' then
        match takeDigits rest with
        | ([], _) => none
        | (ds, r) => some (.num (-(digitsToNat ds : Int)), r)
      else if isDigitCh c then
        match takeDigits (c :: rest) with
        | (ds, r) => some (.num (digitsToNat ds : Int), r)
      else if c = '[' then
        match skipWs rest with
        | d :: r => if d = ']' then some (.arr [], r) else
            match parseElems fuel rest with
            | some (xs, r2) => some (.arr xs, r2)
            | none => none
        | [] => none
      else if c = lbrace then
        match skipWs rest with
        | d :: r => if d = rbrace then some (.obj [], r) else
            match parseMembers fuel rest with
            | some (kvs, r2) => some (.obj kvs, r2)
            | none => none
        | [] => none
      else none

/-- Parse the elements of a non-empty JSON array, up to and including the
closing bracket. -/
def parseElems : Nat → List Char → Option (List JVal × List Char)
  | 0, _ => none
  | fuel + 1, cs =>
    match parseVal fuel cs with
    | none => none
    | some (v, r) =>
      match skipWs r with
      | d :: r2 =>
        if d = ',' then
          match parseElems fuel r2 with
          | some (vs, r3) => some (v :: vs, r3)
          | none => none
        else if d = ']' then some ([v], r2)
        else none
      | [] => none

/-- Parse the members of a non-empty JSON object, up to and including the
closing brace.  On a duplicate key the later member wins, as in
`json.loads`. -/
def parseMembers : Nat → List Char → Option (List (String × JVal) × List Char)
  | 0, _ => none
  | fuel + 1, cs =>
    match skipWs cs with
    | c :: rest =>
      if c = '"' then
        match parseStringBody rest with
        | none => none
        | some (k, r) =>
          match skipWs r with
          | d :: r2 =>
            if d = ':' then
              match parseVal fuel r2 with
              | none => none
              | some (v, r3) =>
                match skipWs r3 with
                | e :: r4 =>
                  if e = ',' then
                    match parseMembers fuel r4 with
                    | some (kvs, r5) =>
                      some (if hasKey kvs k then kvs else (k, v) :: kvs, r5)
                    | none => none
                  else if e = rbrace then some ([(k, v)], r4)
                  else none
                | [] => none
            else none
          | [] => none
      else none
    | [] => none

end

/-- Parsing as in `json.loads`: parse a complete JSON document; fails when the string is
not valid JSON (up to the integer-number modelling noted on `JVal`). -/
def parseJson (s : String) : Option JVal :=
  let cs := s.data
  match parseVal (2 * cs.length + 2) cs with
  | some (v, r) => if (skipWs r).isEmpty then some v else none
  | none => none

/-!
Section: The response normalizer

`stdio_test.py` / `response_parser_demo.py` (`parse_response`) and
`http_mcp_wrapper.py` (`call_mcp_tool`, lines 149-166) share the same
content-unwrapping loop and differ only in what a non-JSON text maps to.
-/

/-- The `for item in result["content"]` loop: the first item whose
`"type"` is `"text"` ends the loop with that item's `"text"` value
(default `""`); a non-dict item makes `.get` raise `AttributeError`,
exactly as in Python. -/
def findTextItem : List JVal → Except PErr (Option JVal)
  | [] => .ok none
  | item :: rest =>
    match pyGet item "type" JVal.null with
    | .error e => .error e
    | .ok t =>
      if isStrVal t "text" then
        match pyGet item "text" (JVal.str "") with
        | .error e => .error e
        | .ok tx => .ok (some tx)
      else findTextItem rest

/-- The content-unwrap step applied to `result`: when `result` has a
`content` list whose first `type == "text"` item carries text that parses
as JSON, return the parsed value; when the text does not parse, return
`fallback text`; otherwise return `result` unchanged.  `json.loads` on a
non-string text value raises `TypeError` (not caught by the
`except json.JSONDecodeError` in the scripts). -/
def normalizeResult (fallback : String → JVal) (result : JVal) : Except PErr JVal :=
  match pyIn "content" result with
  | .error e => .error e
  | .ok c =>
    if c then
      match pySubscript result "content" with
      | .error e => .error e
      | .ok content =>
        match content with
        | .arr items =>
          match findTextItem items with
          | .error e => .error e
          | .ok (some (JVal.str s)) =>
            match parseJson s with
            | some v => .ok v
            | none => .ok (fallback s)
          | .ok (some _) => .error .typeError
          | .ok none => .ok result
        | _ => .ok result
    else .ok result

/-- The fallback of `parse_response`: a non-JSON text is returned as the
raw string. -/
def stdioFallback : String → JVal := JVal.str

/-- The fallback of `call_mcp_tool` in `http_mcp_wrapper.py`: a non-JSON
text is returned wrapped as `{"text": text}`. -/
def httpFallback (s : String) : JVal := JVal.obj [("text", JVal.str s)]

/-- Function `parse_response` (stdio_test.py lines 36-76, response_parser_demo.py
lines 22-80).  `.error` models an uncaught Python exception; `.ok none`
models the Python `None` sentinel returned for an error envelope;
`.ok (some v)` a normal return. -/
def parse_response (response : JVal) : Except PErr (Option JVal) :=
  match pyIn "error" response with
  | .error e => .error e
  | .ok true =>
    match pySubscript response "error" with
    | .error e => .error e
    | .ok errv =>
      match pyGet errv "message" (JVal.str "Unknown error") with
      | .error e => .error e
      | .ok _ =>
        match pyGet errv "code" (JVal.num (-1)) with
        | .error e => .error e
        | .ok _ => .ok none
  | .ok false =>
    match pyIn "result" response with
    | .error e => .error e
    | .ok false => .ok (some (JVal.obj []))
    | .ok true =>
      match pySubscript response "result" with
      | .error e => .error e
      | .ok result =>
        match normalizeResult stdioFallback result with
        | .error e => .error e
        | .ok v => .ok (some v)

/-- The reply-line handling of `GitHubMCPClient.call_tool`
(stdio_test.py lines 186-196): `json.loads` the line, return `None` on
`JSONDecodeError`, otherwise hand the envelope to `parse_response`. -/
def call_tool_handleReply (line : String) : Except PErr (Option JVal) :=
  match parseJson line with
  | none => .ok none
  | some response => parse_response response

/-!
Section: call_mcp_tool and the /tools/call endpoint (http_mcp_wrapper.py)
-/

/-- The f-string `f"{error_message} (code {error_code})"` of
`call_mcp_tool`. -/
def fmtToolError (msg code : JVal) : String :=
  pyStr msg ++ " (code " ++ pyStr code ++ ")"

/-- Placeholder for Python's `str(e)` on a caught exception; the exact
traceback message text is outside the JSON data model. -/
def pErrMsg : PErr → String
  | .typeError => "TypeError"
  | .attributeError => "AttributeError"
  | .keyError => "KeyError"

/-- Placeholder for `str(e)` of a `json.JSONDecodeError`. -/
def jsonDecodeMsg : String := "Expecting value"

/-- The response handling of `call_mcp_tool` (http_mcp_wrapper.py lines
143-166), after `json.loads` succeeded on the reply line: an `error`
member is reformatted into `{"error": "<message> (code <code>)"}`; a
`result` member goes through the content unwrap with the `{"text": ...}`
fallback; with neither member the function returns `{}`. -/
def processToolResponse (response : JVal) : Except PErr JVal :=
  match pyIn "error" response with
  | .error e => .error e
  | .ok true =>
    match pySubscript response "error" with
    | .error e => .error e
    | .ok errv =>
      match pyGet errv "message" (JVal.str "Unknown error") with
      | .error e => .error e
      | .ok msg =>
        match pyGet errv "code" (JVal.num (-1)) with
        | .error e => .error e
        | .ok code => .ok (JVal.obj [("error", JVal.str (fmtToolError msg code))])
  | .ok false =>
    match pyIn "result" response with
    | .error e => .error e
    | .ok false => .ok (JVal.obj [])
    | .ok true =>
      match pySubscript response "result" with
      | .error e => .error e
      | .ok result => normalizeResult httpFallback result

/-- The state `call_mcp_tool` runs against: whether the global
`mcp_process` is alive (`poll()` returned `None`), whether a
`start_mcp_server()` call issued now would succeed, and the reply line
`readline()` yields (`none` models the empty read of a closed pipe). -/
structure CallCtx where
  alive : Bool
  startOk : Bool
  replyLine : Option String

/-- Function `call_mcp_tool` (http_mcp_wrapper.py lines 101-170).  All failure
paths return a `{"error": message}` dict; a caught exception's message is
abstracted by `pErrMsg`/`jsonDecodeMsg`. -/
def call_mcp_tool (ctx : CallCtx) : JVal :=
  if !ctx.alive && !ctx.startOk then
    JVal.obj [("error", JVal.str "Failed to start MCP server")]
  else
    match ctx.replyLine with
    | none => JVal.obj [("error", JVal.str "No response from MCP server")]
    | some line =>
      match parseJson line with
      | none => JVal.obj [("error", JVal.str jsonDecodeMsg)]
      | some response =>
        match processToolResponse response with
        | .ok v => v
        | .error e => JVal.obj [("error", JVal.str (pErrMsg e))]

/-- The JSON-RPC envelope `call_mcp_tool` writes to the child's stdin. -/
def buildToolCallRequest (rid name : String) (arguments : JVal) : JVal :=
  JVal.obj [("jsonrpc", JVal.str "2.0"), ("id", JVal.str rid),
            ("method", JVal.str "tools/call"),
            ("params", JVal.obj [("name", JVal.str name), ("arguments", arguments)])]

/-- An HTTP response: status code and JSON body. -/
structure HttpResp where
  status : Nat
  body : JVal
  deriving Repr

/-- The `/tools/call` branch of `MCPRequestHandler.do_POST`
(http_mcp_wrapper.py lines 315-331), after the request body parsed as
JSON `data`: a missing or falsy `name` is answered with 400; everything
else is answered with status 200 and whatever `call_mcp_tool` returned.
`.error` models an uncaught handler exception (no response is sent). -/
def toolsCallEndpoint (ctx : CallCtx) (data : JVal) : Except PErr HttpResp :=
  match pyGet data "name" JVal.null with
  | .error e => .error e
  | .ok nameV =>
    match pyGet data "arguments" (JVal.obj []) with
    | .error e => .error e
    | .ok _args =>
      if pyFalsy nameV then
        .ok ⟨400, JVal.obj [("error", JVal.str "Tool name is required")]⟩
      else
        .ok ⟨200, call_mcp_tool ctx⟩

/-- Handler `do_POST` on path `/tools/call` including the body parse: a body that
is not valid JSON is answered with 400 before any dispatch. -/
def do_POST_toolsCall (ctx : CallCtx) (postData : String) : Except PErr HttpResp :=
  match parseJson postData with
  | none => .ok ⟨400, JVal.obj [("error", JVal.str "Invalid JSON")]⟩
  | some data => toolsCallEndpoint ctx data

/-!
Section: The SSE endpoints

`http_mcp_wrapper.py` streams `data`/`end`/`error` events from
`stream_sse_response`; the older `http_wrapper.py` sends a single `data`
event from its `do_POST`.
-/

/-- One Server-Sent Event as emitted by the wrappers. -/
inductive SSEEvent where
  | data (payload : String)
  | endEv
  | error (payload : String)
  deriving Repr, DecidableEq

/-- Python `v.get(k, d)` on a value known to be a dict at the call site (the
wrappers apply it to envelopes they built themselves). -/
def objGetD (v : JVal) (k : String) (d : JVal) : JVal :=
  match v with
  | .obj kvs => (jlookup kvs k).getD d
  | _ => d

/-- The payload written by `send_sse_error` (http_mcp_wrapper.py lines
431-445): a JSON-RPC error envelope with code -32000. -/
def sseErrorPayload (message : String) (requestId : JVal) : String :=
  jdumps (JVal.obj [("jsonrpc", JVal.str "2.0"), ("id", requestId),
                    ("error", JVal.obj [("code", JVal.num (-32000)),
                                        ("message", JVal.str message)])])

/-- Function `stream_sse_response` (http_mcp_wrapper.py lines 385-429): the list of
events written to the open stream.  On success: one `data` event carrying
`json.dumps(response)` followed by one `end` event; every failure path
goes through `send_sse_error` and emits a single `error` event. -/
def stream_sse_response (ctx : CallCtx) (request : JVal) : List SSEEvent :=
  let rid := objGetD request "id" (JVal.str "unknown")
  if !ctx.alive && !ctx.startOk then
    [SSEEvent.error (sseErrorPayload "Failed to start MCP server" rid)]
  else
    match ctx.replyLine with
    | none => [SSEEvent.error (sseErrorPayload "No response from MCP server" rid)]
    | some line =>
      match parseJson line with
      | none => [SSEEvent.error (sseErrorPayload jsonDecodeMsg rid)]
      | some response => [SSEEvent.data (jdumps response), SSEEvent.endEv]

/-- The envelope `handle_sse_request` rebuilds before dispatching. -/
def sseRequest (rid : JVal) (method : String) (params : JVal) : JVal :=
  JVal.obj [("jsonrpc", JVal.str "2.0"), ("id", rid),
            ("method", JVal.str method), ("params", params)]

/-- Function `handle_sse_request` (http_mcp_wrapper.py lines 347-383), invoked
after the stream headers are sent.  `freshId` stands for the
`str(uuid.uuid4())` default id.  The three `request_data.get(...)` calls
are the raising `pyGet`: a non-dict body (a JSON string or array that
passed the `in` membership guards of `do_POST`) raises `AttributeError`
at the first `.get`, as does `"name" not in params` on a non-dict
`params`.  `.error` models such an uncaught exception, which closes the
opened stream with no events written. -/
def handle_sse_request (ctx : CallCtx) (freshId : String) (data : JVal) :
    Except PErr (List SSEEvent) :=
  match pyGet data "method" JVal.null with
  | .error e => .error e
  | .ok method =>
    match pyGet data "params" (JVal.obj []) with
    | .error e => .error e
    | .ok params =>
      match pyGet data "id" (JVal.str freshId) with
      | .error e => .error e
      | .ok rid =>
        if isStrVal method "tools/list" then
          .ok (stream_sse_response ctx (sseRequest rid "tools/list" params))
        else if isStrVal method "tools/call" then
          match pyIn "name" params with
          | .error e => .error e
          | .ok hasName =>
            if hasName then
              .ok (stream_sse_response ctx (sseRequest rid "tools/call" params))
            else
              .ok [SSEEvent.error (sseErrorPayload "Tool name is required" rid)]
        else
          .ok [SSEEvent.error
            (sseErrorPayload ("Unsupported method: " ++ pyStr method) rid)]

/-- The `/sse` branch of `do_POST` (http_mcp_wrapper.py lines 286-313):
`.ok none` means a plain 400 was sent and no stream was opened; `.ok
(some events)` means the `text/event-stream` response was opened and
`events` were written to it. -/
def do_POST_sse (ctx : CallCtx) (freshId : String) (postData : String) :
    Except PErr (Option (List SSEEvent)) :=
  match parseJson postData with
  | none => .ok none
  | some data =>
    match pyIn "jsonrpc" data with
    | .error e => .error e
    | .ok hasJ =>
      match pyIn "method" data with
      | .error e => .error e
      | .ok hasM =>
        if !hasJ || !hasM then .ok none
        else
          match handle_sse_request ctx freshId data with
          | .error e => .error e
          | .ok evs => .ok (some evs)

/-- Placeholder for `str(e)` of the exception raised when the request is
written after a failed restart (http_wrapper.py line 79). -/
def writeFailMsg : String := "Broken pipe"

/-- The `/sse` branch of `http_wrapper.py`'s `do_POST` (lines 57-121).
`.inl (status, body)` is a plain HTTP JSON response (no stream opened);
`.inr events` is an opened `text/event-stream` and the events written to
it.  Note the success path emits a single `data` event and no `end`
event. -/
def httpWrapperSse (ctx : CallCtx) (postData : String) :
    Sum (Nat × JVal) (List SSEEvent) :=
  match parseJson postData with
  | none => .inl (400, JVal.obj [("error", JVal.str "Invalid JSON")])
  | some _request =>
    if !ctx.alive && !ctx.startOk then
      .inl (500, JVal.obj [("error", JVal.str writeFailMsg)])
    else
      match ctx.replyLine with
      | none => .inl (500, JVal.obj [("error", JVal.str "No response from MCP server")])
      | some line =>
        match parseJson line with
        | none => .inl (400, JVal.obj [("error", JVal.str "Invalid JSON")])
        | some response => .inr [SSEEvent.data (jdumps response)]

/-!
Section: Subprocess start (http_mcp_wrapper.py / http_wrapper.py / stdio_test.py)
-/

/-- The argv `start_mcp_server` passes to `subprocess.Popen`
(http_mcp_wrapper.py line 49): the backend binary path followed by the
single argument `stdio`.  It does not mention the token. -/
def mcpArgv : List String := ["./github-mcp-server", "stdio"]

def envGet : List (String × String) → String → Option String
  | [], _ => none
  | (k, v) :: rest, key => if k = key then some v else envGet rest key

/-- The child environment: `os.environ.copy()` followed by
`env["GITHUB_PERSONAL_ACCESS_TOKEN"] = token`. -/
def mcpEnv (baseEnv : List (String × String)) (token : String) :
    List (String × String) :=
  ("GITHUB_PERSONAL_ACCESS_TOKEN", token) ::
    baseEnv.filter (fun p => p.1 ≠ "GITHUB_PERSONAL_ACCESS_TOKEN")

/-- What the operating system did with the spawn: whether `Popen` raised,
and whether `poll()` observed an exit code when checked after the fixed
`time.sleep(1)` grace delay. -/
structure SpawnOutcome where
  popenRaised : Bool
  exitedEarly : Bool

/-- Function `start_mcp_server` (http_mcp_wrapper.py lines 37-84): returns `False`
when `Popen` raised or when the process had already exited at the
post-delay poll, `True` otherwise. -/
def start_mcp_server (o : SpawnOutcome) : Bool :=
  if o.popenRaised then false
  else if o.exitedEarly then false
  else true

/-!
Section: Transport ordering (http_mcp_wrapper.py, served by ThreadingTCPServer)

`call_mcp_tool` performs a stdin write followed by a stdout read with no
lock anywhere in the module, and `main` (line 469) serves requests with
`socketserver.ThreadingTCPServer`, so two handler threads may interleave
their transport actions freely.  The traces of two concurrent calls are
modelled as all interleavings of the two per-thread action sequences.
-/

/-- One transport action of a handler thread, tagged by request number. -/
inductive TAct where
  | write (rid : Nat)
  | read (rid : Nat)
  deriving Repr, DecidableEq

/-- The transport actions one `call_mcp_tool` invocation performs, in
program order: write the request line, then read one reply line. -/
def handlerActs (rid : Nat) : List TAct := [TAct.write rid, TAct.read rid]

/-- All interleavings of two instruction sequences, structurally
recursive on a fuel bounding the combined length. -/
def interleavingsF : Nat → List α → List α → List (List α)
  | _, [], ys => [ys]
  | _, x :: xs, [] => [x :: xs]
  | 0, _, _ => []
  | f + 1, x :: xs, y :: ys =>
    (interleavingsF f xs (y :: ys)).map (x :: ·) ++
      (interleavingsF f (x :: xs) ys).map (y :: ·)

/-- All interleavings of two instruction sequences. -/
def interleavings (xs ys : List α) : List (List α) :=
  interleavingsF (xs.length + ys.length) xs ys

/-- The transport traces two concurrent `/tools/call` handlers can
produce: with no lock in the module, the scheduler may realize any
interleaving of the two write/read pairs. -/
def gatewayTraces : List (List TAct) :=
  interleavings (handlerActs 1) (handlerActs 2)

/-- Whether `a` occurs (first) strictly before `b` in the trace. -/
def precedes (t : List TAct) (a b : TAct) : Bool :=
  match t.findIdx? (· = a), t.findIdx? (· = b) with
  | some i, some j => i < j
  | _, _ => false

/-- The trace of two calls dispatched without overlap: the first call
completes before the second starts. -/
def seqTrace : List TAct := handlerActs 1 ++ handlerActs 2

/-!
Section: Shared lemmas and concrete values
-/

/-- A result whose `content` list's first entry is a `type == "text"` item
carrying `text = s`, with arbitrary further members everywhere. -/
def textWrapped (s : String) (extra : List (String × JVal)) (more : List JVal)
    (rest : List (String × JVal)) : JVal :=
  JVal.obj (("content",
    JVal.arr (JVal.obj (("type", JVal.str "text") :: ("text", JVal.str s) :: extra)
      :: more)) :: rest)

lemma normalizeResult_textWrapped (fb : String → JVal) (s : String)
    (extra : List (String × JVal)) (more : List JVal)
    (rest : List (String × JVal)) :
    normalizeResult fb (textWrapped s extra more rest) =
      .ok ((parseJson s).getD (fb s)) := by
  cases h : parseJson s <;>
    simp [normalizeResult, textWrapped, pyIn, hasKey, jlookup, pySubscript,
      findTextItem, pyGet, isStrVal, h]

lemma normalizeResult_noContent (fb : String → JVal)
    (kvs : List (String × JVal)) (h : jlookup kvs "content" = none) :
    normalizeResult fb (JVal.obj kvs) = .ok (JVal.obj kvs) := by
  simp [normalizeResult, pyIn, hasKey, h]

lemma parse_response_errorObj (kvs ekvs : List (String × JVal))
    (h : jlookup kvs "error" = some (JVal.obj ekvs)) :
    parse_response (JVal.obj kvs) = .ok none := by
  simp [parse_response, pyIn, hasKey, pySubscript, pyGet, h]

lemma parse_response_noFields (kvs : List (String × JVal))
    (h1 : jlookup kvs "error" = none) (h2 : jlookup kvs "result" = none) :
    parse_response (JVal.obj kvs) = .ok (some (JVal.obj [])) := by
  simp [parse_response, pyIn, hasKey, pySubscript, h1, h2]

/-- The content-wrapper around the plain, non-JSON text `"plain"`. -/
def plainResult : JVal := textWrapped "plain" [] [] []

/-- Value `plainResult` serialized and wrapped once more: a doubly nested
content wrapper. -/
def nestedResult : JVal := textWrapped (jdumpsc plainResult) [] [] []

/-!
Section: C1 — normalizer unwrap
-/

/-- Claim C1, counterexample: with the non-JSON text `"plain"`, the
normalizer inside `call_mcp_tool` (http_mcp_wrapper.py lines 149-166)
returns `{"text": "plain"}`, not the raw text string `"plain"` unchanged
as the claim states. -/
theorem normalize_plain_text_http_cex :
    normalizeResult httpFallback plainResult =
      .ok (JVal.obj [("text", JVal.str "plain")]) ∧
    JVal.obj [("text", JVal.str "plain")] ≠ JVal.str "plain" := by
  constructor
  · rfl
  · simp

/-- Claim C1 (amended): for every result whose `content` list's first
`type == "text"` item carries text `s`: if `s` parses as JSON both
normalizers return the parsed value; if not, `parse_response` returns the
raw text string while `call_mcp_tool` returns `{"text": s}`; and every
dict result without a `content` key is returned unchanged by both. -/
theorem normalize_unwrap_correct :
    (∀ (s : String) (extra : List (String × JVal)) (more : List JVal)
        (rest : List (String × JVal)),
      normalizeResult stdioFallback (textWrapped s extra more rest) =
        .ok ((parseJson s).getD (JVal.str s)) ∧
      normalizeResult httpFallback (textWrapped s extra more rest) =
        .ok ((parseJson s).getD (JVal.obj [("text", JVal.str s)]))) ∧
    (∀ kvs : List (String × JVal), jlookup kvs "content" = none →
      normalizeResult stdioFallback (JVal.obj kvs) = .ok (JVal.obj kvs) ∧
      normalizeResult httpFallback (JVal.obj kvs) = .ok (JVal.obj kvs)) := by
  constructor
  · intro s extra more rest
    exact ⟨normalizeResult_textWrapped stdioFallback s extra more rest,
      normalizeResult_textWrapped httpFallback s extra more rest⟩
  · intro kvs h
    exact ⟨normalizeResult_noContent stdioFallback kvs h,
      normalizeResult_noContent httpFallback kvs h⟩

/-- Witness for C1's theorem at concrete inputs: the text
`{"a":1}` parses and is unwrapped; the dict `{"x": 1}` has no content key
and passes through unchanged. -/
theorem normalize_unwrap_correct_witness :
    (normalizeResult stdioFallback (textWrapped "\x7b\"a\":1\x7d" [] [] []) =
      .ok (JVal.obj [("a", JVal.num 1)]) ∧
     normalizeResult httpFallback (textWrapped "\x7b\"a\":1\x7d" [] [] []) =
      .ok (JVal.obj [("a", JVal.num 1)])) ∧
    (normalizeResult stdioFallback (JVal.obj [("x", JVal.num 1)]) =
      .ok (JVal.obj [("x", JVal.num 1)]) ∧
     normalizeResult httpFallback (JVal.obj [("x", JVal.num 1)]) =
      .ok (JVal.obj [("x", JVal.num 1)])) := by
  constructor
  · have h := normalize_unwrap_correct.1 "\x7b\"a\":1\x7d" [] [] []
    exact ⟨h.1.trans (by rfl), h.2.trans (by rfl)⟩
  · exact normalize_unwrap_correct.2 [("x", JVal.num 1)] rfl

/-!
Section: C2 — determinism and idempotence
-/

/-- Claim C2, counterexample: the normalizer applied to its own output is
not the identity — unwrapping `nestedResult` yields `plainResult`, and a
second application unwraps again to the string `"plain"`. -/
theorem normalize_not_idempotent_cex :
    normalizeResult stdioFallback nestedResult = .ok plainResult ∧
    normalizeResult stdioFallback plainResult = .ok (JVal.str "plain") ∧
    plainResult ≠ JVal.str "plain" := by
  refine ⟨rfl, rfl, ?_⟩
  simp [plainResult, textWrapped]

/-- Claim C2 (amended): normalization is deterministic (a pure function
of the response value — two runs on equal inputs are definitionally
equal), but idempotent only on outputs not subject to the unwrap: when
the output is a dict without a `content` key, a second application
returns it unchanged.  (A content-shaped output is unwrapped again, per
the counterexample.) -/
theorem normalize_deterministic_idempotent_cases :
    (∀ v, normalizeResult stdioFallback v = normalizeResult stdioFallback v) ∧
    (∀ (v : JVal) (kvs : List (String × JVal)),
      normalizeResult stdioFallback v = .ok (JVal.obj kvs) →
      jlookup kvs "content" = none →
      normalizeResult stdioFallback (JVal.obj kvs) = .ok (JVal.obj kvs)) := by
  refine ⟨fun _ => rfl, ?_⟩
  intro v kvs _ h
  exact normalizeResult_noContent stdioFallback kvs h

/-- Witness for C2's theorem: `{"login": "octocat"}` is a fixed point of
the normalizer, reached from a content-wrapped input. -/
theorem normalize_deterministic_idempotent_cases_witness :
    normalizeResult stdioFallback (JVal.obj [("login", JVal.str "octocat")]) =
      .ok (JVal.obj [("login", JVal.str "octocat")]) :=
  normalize_deterministic_idempotent_cases.2
    (textWrapped "\x7b\"login\":\"octocat\"\x7d" [] [] [])
    [("login", JVal.str "octocat")] (by rfl) rfl

/-!
Section: C4 — end-to-end /tools/call scenario
-/

/-- The exact reply line of the end-to-end scenario. -/
def c4Reply : JVal :=
  JVal.obj [("jsonrpc", JVal.str "2.0"), ("id", JVal.str "1"),
    ("result", JVal.obj [("content", JVal.arr
      [JVal.obj [("type", JVal.str "text"),
        ("text", JVal.str (jdumpsc (JVal.obj [("login", JVal.str "octocat")])))]])])]

def c4Line : String := jdumpsc c4Reply

/-- The POST body dispatching `tools/call` with `name="get_me"` and
empty arguments. -/
def c4Body : String :=
  jdumpsc (JVal.obj [("name", JVal.str "get_me"), ("arguments", JVal.obj [])])

/-- Claim C4: when the subprocess writes the single reply line
`{"jsonrpc":"2.0","id":"1","result":{"content":[{"type":"text","text":"{\"login\":\"octocat\"}"}]}}`
(the first conjunct pins `c4Line` to exactly that string), `POST
/tools/call` with `name="get_me"`, `arguments={}` answers status 200 with
body `{"login":"octocat"}`. -/
theorem tools_call_end_to_end :
    c4Line =
      "\x7b\"jsonrpc\":\"2.0\",\"id\":\"1\",\"result\":\x7b\"content\":[\x7b\"type\":\"text\",\"text\":\"\x7b\\\"login\\\":\\\"octocat\\\"\x7d\"\x7d]\x7d\x7d" ∧
    do_POST_toolsCall ⟨true, true, some c4Line⟩ c4Body =
      .ok ⟨200, JVal.obj [("login", JVal.str "octocat")]⟩ :=
  ⟨rfl, rfl⟩

/-!
Section: C5 — /tools/call status mapping
-/

/-- Claim C5, counterexample: with the subprocess dead and restart
failing, `POST /tools/call` answers status 200 whose body is the error
object `{"error": "Failed to start MCP server"}` — the gateway does
return 200 together with an error body. -/
theorem tools_call_error_with_200_cex :
    do_POST_toolsCall ⟨false, false, none⟩ c4Body =
      .ok ⟨200, JVal.obj [("error", JVal.str "Failed to start MCP server")]⟩ ∧
    hasKey [("error", JVal.str "Failed to start MCP server")] "error" = true :=
  ⟨rfl, rfl⟩

/-- Claim C5 (amended): for a JSON object body, `/tools/call` answers 400
with `{"error": "Tool name is required"}` exactly when the `name` member
is missing or falsy, and otherwise always answers 200 with whatever
`call_mcp_tool` produced — including `{"error": message}` bodies on
dispatch failure; a body that is not valid JSON is answered 400 before
any dispatch. -/
theorem tools_call_status_mapping :
    ∀ (ctx : CallCtx) (kvs : List (String × JVal)),
      (pyFalsy ((jlookup kvs "name").getD JVal.null) = true →
        toolsCallEndpoint ctx (JVal.obj kvs) =
          .ok ⟨400, JVal.obj [("error", JVal.str "Tool name is required")]⟩) ∧
      (pyFalsy ((jlookup kvs "name").getD JVal.null) = false →
        toolsCallEndpoint ctx (JVal.obj kvs) = .ok ⟨200, call_mcp_tool ctx⟩) ∧
      (∀ s, parseJson s = none →
        do_POST_toolsCall ctx s =
          .ok ⟨400, JVal.obj [("error", JVal.str "Invalid JSON")]⟩) := by
  intro ctx kvs
  refine ⟨fun h => ?_, fun h => ?_, fun s h => ?_⟩
  · simp [toolsCallEndpoint, pyGet, h]
  · simp [toolsCallEndpoint, pyGet, h]
  · simp [do_POST_toolsCall, h]

/-- Witness for C5's theorem: an empty body object lacks `name` (400);
`"plain"` is not valid JSON (400); a present `name` gives 200. -/
theorem tools_call_status_mapping_witness :
    toolsCallEndpoint ⟨false, false, none⟩ (JVal.obj []) =
      .ok ⟨400, JVal.obj [("error", JVal.str "Tool name is required")]⟩ ∧
    do_POST_toolsCall ⟨false, false, none⟩ "plain" =
      .ok ⟨400, JVal.obj [("error", JVal.str "Invalid JSON")]⟩ ∧
    toolsCallEndpoint ⟨false, false, none⟩
        (JVal.obj [("name", JVal.str "get_me")]) =
      .ok ⟨200, call_mcp_tool ⟨false, false, none⟩⟩ :=
  ⟨(tools_call_status_mapping ⟨false, false, none⟩ []).1 rfl,
   (tools_call_status_mapping ⟨false, false, none⟩ []).2.2 "plain" rfl,
   (tools_call_status_mapping ⟨false, false, none⟩
     [("name", JVal.str "get_me")]).2.1 rfl⟩

/-!
Section: C6 — decode failure conditions
-/

/-- Claim C6, counterexample: the reply line `{}` is valid JSON lacking
both `result` and `error`, yet the client's decode path does not fail —
it returns the empty dict, which differs from the `None` failure
sentinel. -/
theorem decode_accepts_missing_fields_cex :
    call_tool_handleReply "\x7b\x7d" = .ok (some (JVal.obj [])) ∧
    Except.ok (some (JVal.obj [])) ≠ (.ok none : Except PErr (Option JVal)) := by
  exact ⟨rfl, by simp⟩

/-- Claim C6 (amended): decoding a reply line fails (the stdio client
returns the `None` sentinel) exactly when the line is not valid JSON; an
envelope lacking both `result` and `error` is not rejected —
`parse_response` logs a warning and returns the empty dict. -/
theorem decode_failure_conditions :
    (∀ line, parseJson line = none → call_tool_handleReply line = .ok none) ∧
    (∀ kvs : List (String × JVal),
      jlookup kvs "error" = none → jlookup kvs "result" = none →
      parse_response (JVal.obj kvs) = .ok (some (JVal.obj []))) := by
  constructor
  · intro line h
    simp [call_tool_handleReply, h]
  · intro kvs h1 h2
    exact parse_response_noFields kvs h1 h2

/-- Witness for C6's theorem: `"plain"` is not valid JSON and decodes to
the `None` sentinel; the empty envelope decodes to the empty dict. -/
theorem decode_failure_conditions_witness :
    call_tool_handleReply "plain" = .ok none ∧
    parse_response (JVal.obj []) = .ok (some (JVal.obj [])) :=
  ⟨decode_failure_conditions.1 "plain" rfl,
   decode_failure_conditions.2 [] rfl rfl⟩

/-!
Section: C7 — upstream JSON-RPC errors
-/

def c7ErrObj : JVal :=
  JVal.obj [("message", JVal.str "denied"), ("code", JVal.num (-32000))]

/-- Claim C7, counterexample: an upstream reply carrying the error object
`{"message": "denied", "code": -32000}` is surfaced by `call_mcp_tool` as
`{"error": "denied (code -32000)"}` — a reformatted string, not the
original error object passed through verbatim. -/
theorem tool_error_reformatted_cex :
    call_mcp_tool ⟨true, true,
        some (jdumpsc (JVal.obj [("error", c7ErrObj)]))⟩ =
      JVal.obj [("error", JVal.str "denied (code -32000)")] ∧
    JVal.obj [("error", JVal.str "denied (code -32000)")] ≠
      JVal.obj [("error", c7ErrObj)] := by
  refine ⟨rfl, ?_⟩
  simp [c7ErrObj]

/-- Claim C7 (amended): an upstream JSON-RPC `error` object is never
retried — `call_mcp_tool` consumes exactly one reply line per call — but
it is surfaced reformatted, as `{"error": "<message> (code <code>)"}`,
rather than verbatim with its original structure. -/
theorem tool_error_never_retried_reformat :
    ∀ (msg : String) (code : Int) (erest rest : List (String × JVal)),
      processToolResponse (JVal.obj (("error",
          JVal.obj (("message", JVal.str msg) :: ("code", JVal.num code) :: erest))
            :: rest)) =
        .ok (JVal.obj [("error",
          JVal.str (msg ++ " (code " ++ toString code ++ ")"))]) := by
  intro msg code erest rest
  rfl

/-!
Section: C8 — subprocess start
-/

/-- Claim C8: `start_mcp_server` passes argv exactly
`["./github-mcp-server", "stdio"]` — the token appears only in the child
environment under `GITHUB_PERSONAL_ACCESS_TOKEN` — and it fails whenever
`Popen` raised or the post-grace-delay `poll()` observed an exit. -/
theorem start_token_env_and_grace :
    ∀ (baseEnv : List (String × String)) (token : String) (o : SpawnOutcome),
      mcpArgv = ["./github-mcp-server", "stdio"] ∧
      envGet (mcpEnv baseEnv token) "GITHUB_PERSONAL_ACCESS_TOKEN" = some token ∧
      (o.exitedEarly = true → start_mcp_server o = false) ∧
      (o.popenRaised = true → start_mcp_server o = false) := by
  intro baseEnv token o
  refine ⟨rfl, rfl, fun h => ?_, fun h => ?_⟩
  · cases hp : o.popenRaised <;> simp [start_mcp_server, h, hp]
  · simp [start_mcp_server, h]

/-- Witness for C8's theorem at a concrete environment, token and spawn
outcome (clean spawn, early exit). -/
theorem start_token_env_and_grace_witness :
    envGet (mcpEnv [("PATH", "/usr/bin")] "tok") "GITHUB_PERSONAL_ACCESS_TOKEN" =
      some "tok" ∧
    start_mcp_server ⟨false, true⟩ = false :=
  ⟨(start_token_env_and_grace [("PATH", "/usr/bin")] "tok" ⟨false, true⟩).2.1,
   (start_token_env_and_grace [("PATH", "/usr/bin")] "tok" ⟨false, true⟩).2.2.1 rfl⟩

/-!
Section: C9 — transport ordering under concurrency
-/

/-- The interleaving in which both requests are written before the first
reply is read. -/
def fifoViolatingTrace : List TAct :=
  [TAct.write 1, TAct.write 2, TAct.read 1, TAct.read 2]

/-- Claim C9, counterexample: with no lock around the write/read pair and
handlers served by `ThreadingTCPServer`, the trace that writes R2 to
stdin before R1's reply has been read is an admissible interleaving of
two concurrent calls. -/
theorem fifo_violation_trace_cex :
    fifoViolatingTrace ∈ gatewayTraces ∧
    precedes fifoViolatingTrace (TAct.read 1) (TAct.write 2) = false ∧
    precedes fifoViolatingTrace (TAct.write 2) (TAct.read 1) = true := by
  decide

/-- Claim C9 (amended): each call performs its write before its read
(program order is preserved in every interleaving), but FIFO across
callers is not enforced: only when the two dispatches do not overlap
(sequential trace) is R2's write after R1's read. -/
theorem per_call_order_and_overlap :
    (∀ t ∈ gatewayTraces,
      precedes t (TAct.write 1) (TAct.read 1) = true ∧
      precedes t (TAct.write 2) (TAct.read 2) = true) ∧
    precedes seqTrace (TAct.read 1) (TAct.write 2) = true := by
  decide

/-- Witness for C9's theorem at the sequential interleaving, which is a
member of `gatewayTraces`. -/
theorem per_call_order_and_overlap_witness :
    precedes seqTrace (TAct.write 1) (TAct.read 1) = true ∧
    precedes seqTrace (TAct.write 2) (TAct.read 2) = true :=
  per_call_order_and_overlap.1 seqTrace (by decide)

/-!
Section: C10 — parse_response edge cases
-/

/-- Claim C10: `parse_response` maps every envelope carrying an `error`
object to the `None` sentinel, and every envelope with neither `error`
nor `result` to the empty dict; neither shape raises. -/
theorem parse_response_error_and_missing_result :
    (∀ (kvs ekvs : List (String × JVal)),
      jlookup kvs "error" = some (JVal.obj ekvs) →
      parse_response (JVal.obj kvs) = .ok none) ∧
    (∀ kvs : List (String × JVal),
      jlookup kvs "error" = none → jlookup kvs "result" = none →
      parse_response (JVal.obj kvs) = .ok (some (JVal.obj []))) := by
  constructor
  · intro kvs ekvs h
    exact parse_response_errorObj kvs ekvs h
  · intro kvs h1 h2
    exact parse_response_noFields kvs h1 h2

/-- Witness for C10's theorem: a 401 error envelope yields `None`; an
envelope with only a `jsonrpc` member yields the empty dict. -/
theorem parse_response_error_and_missing_result_witness :
    parse_response (JVal.obj [("error", JVal.obj [("code", JVal.num 401),
        ("message", JVal.str "Bad credentials")])]) = .ok none ∧
    parse_response (JVal.obj [("jsonrpc", JVal.str "2.0")]) =
      .ok (some (JVal.obj [])) :=
  ⟨parse_response_error_and_missing_result.1
      [("error", JVal.obj [("code", JVal.num 401),
        ("message", JVal.str "Bad credentials")])]
      [("code", JVal.num 401), ("message", JVal.str "Bad credentials")] rfl,
   parse_response_error_and_missing_result.2
      [("jsonrpc", JVal.str "2.0")] rfl rfl⟩

/-!
Section: C3 — SSE event discipline
-/

lemma stream_sse_shape (ctx : CallCtx) (request : JVal) :
    (∃ p, stream_sse_response ctx request = [SSEEvent.data p, SSEEvent.endEv]) ∨
    (∃ m, stream_sse_response ctx request = [SSEEvent.error m]) := by
  rcases ctx with ⟨alive, startOk, reply⟩
  by_cases hb : (!alive && !startOk) = true
  · exact Or.inr ⟨sseErrorPayload "Failed to start MCP server"
      (objGetD request "id" (JVal.str "unknown")), by simp [stream_sse_response, hb]⟩
  · rw [Bool.not_eq_true] at hb
    cases reply with
    | none =>
      exact Or.inr ⟨sseErrorPayload "No response from MCP server"
        (objGetD request "id" (JVal.str "unknown")), by simp [stream_sse_response, hb]⟩
    | some line =>
      cases hp : parseJson line with
      | none =>
        exact Or.inr ⟨sseErrorPayload jsonDecodeMsg
          (objGetD request "id" (JVal.str "unknown")),
          by simp [stream_sse_response, hb, hp]⟩
      | some response =>
        exact Or.inl ⟨jdumps response, by simp [stream_sse_response, hb, hp]⟩

def c3OkResponse : JVal :=
  JVal.obj [("jsonrpc", JVal.str "2.0"), ("id", JVal.str "1"),
    ("result", JVal.obj [])]

def c3OkLine : String := jdumpsc c3OkResponse

/-- A valid `tools/list` JSON-RPC envelope as POST body. -/
def c3PostBody : String :=
  jdumpsc (JVal.obj [("jsonrpc", JVal.str "2.0"), ("id", JVal.str "1"),
    ("method", JVal.str "tools/list"), ("params", JVal.obj [])])

/-- Claim C3, counterexample: the SSE stream opened by `http_wrapper.py`'s
`POST /sse` on a successful dispatch emits exactly one `data` event and no
terminal `end` event at all. -/
theorem http_wrapper_sse_no_end_cex :
    httpWrapperSse ⟨true, true, some c3OkLine⟩ c3PostBody =
      .inr [SSEEvent.data (jdumps c3OkResponse)] ∧
    SSEEvent.endEv ∉ [SSEEvent.data (jdumps c3OkResponse)] := by
  refine ⟨rfl, ?_⟩
  simp

/-- Claim C3 (amended): in `http_mcp_wrapper.py`, every event list written
by `stream_sse_response` is either one `data` event followed by one `end`
event or a single `error` event (so never a `data` after an `end`); on
success — subprocess available and the reply line parsing — it is exactly
`data` then `end`, and the same discipline holds for every event list
`handle_sse_request` writes without raising.  `http_wrapper.py`'s `/sse`,
however, emits a single `data` event with no `end` (the counterexample). -/
theorem sse_event_discipline :
    ∀ (ctx : CallCtx) (request : JVal),
      ((∃ p, stream_sse_response ctx request =
          [SSEEvent.data p, SSEEvent.endEv]) ∨
       (∃ m, stream_sse_response ctx request = [SSEEvent.error m])) ∧
      (∀ line response, ctx.replyLine = some line →
        parseJson line = some response → (ctx.alive || ctx.startOk) = true →
        stream_sse_response ctx request =
          [SSEEvent.data (jdumps response), SSEEvent.endEv]) ∧
      (∀ freshId d evs, handle_sse_request ctx freshId d = .ok evs →
        (∃ p, evs = [SSEEvent.data p, SSEEvent.endEv]) ∨
        (∃ m, evs = [SSEEvent.error m])) := by
  intro ctx request
  refine ⟨stream_sse_shape ctx request, ?_, ?_⟩
  · intro line response hr hp ha
    have hb : (!ctx.alive && !ctx.startOk) = false := by
      cases h1 : ctx.alive <;> cases h2 : ctx.startOk <;> simp_all
    simp [stream_sse_response, hb, hr, hp]
  · intro freshId d evs h
    cases hm : pyGet d "method" JVal.null with
    | error e => simp [handle_sse_request, hm] at h
    | ok method =>
      cases hq : pyGet d "params" (JVal.obj []) with
      | error e => simp [handle_sse_request, hm, hq] at h
      | ok params =>
        cases hi : pyGet d "id" (JVal.str freshId) with
        | error e => simp [handle_sse_request, hm, hq, hi] at h
        | ok rid =>
          by_cases h1 : isStrVal method "tools/list" = true
          · simp [handle_sse_request, hm, hq, hi, h1] at h
            rw [← h]
            exact stream_sse_shape ctx _
          · by_cases h2 : isStrVal method "tools/call" = true
            · cases hn : pyIn "name" params with
              | error e => simp [handle_sse_request, hm, hq, hi, h1, h2, hn] at h
              | ok b =>
                cases b with
                | true =>
                  simp [handle_sse_request, hm, hq, hi, h1, h2, hn] at h
                  rw [← h]
                  exact stream_sse_shape ctx _
                | false =>
                  simp [handle_sse_request, hm, hq, hi, h1, h2, hn] at h
                  exact Or.inr ⟨_, h.symm⟩
            · simp [handle_sse_request, hm, hq, hi, h1, h2] at h
              exact Or.inr ⟨_, h.symm⟩

/-- Witness for C3's theorem: on a live subprocess whose reply line is
`c3OkLine`, the stream is exactly one `data` event, carrying the full
JSON-RPC response, then one `end` event. -/
theorem sse_event_discipline_witness :
    stream_sse_response ⟨true, true, some c3OkLine⟩
        (sseRequest (JVal.str "1") "tools/list" (JVal.obj [])) =
      [SSEEvent.data (jdumps c3OkResponse), SSEEvent.endEv] :=
  (sse_event_discipline ⟨true, true, some c3OkLine⟩
      (sseRequest (JVal.str "1") "tools/list" (JVal.obj []))).2.1
    c3OkLine c3OkResponse rfl rfl rfl

end MCPGateway
